import Mathlib

/-!
Verification of the TSI privileged command dispatch engine.

Shallow embedding of `lib/BecomeUser.py` and `lib/TSI.py`:
user/group resolution is abstracted by a `UserCache` record of lookup
functions (the cache itself only memoizes OS queries); process identity
(real/effective/saved UID and GID, supplementary groups, and the HOME,
USER, LOGNAME environment variables) is an explicit `ProcState` threaded
through the identity-changing operations; Python exceptions are modelled
by `Except` with a structured error type whose constructors correspond
one-to-one to the `raise` sites of the source.
-/

/-- The lookup interface of `UserCache.py` as consumed by `BecomeUser.py`.
Unknown users/groups yield the sentinel `-1` (empty list / empty string for
the list- and string-valued lookups), as in the source. -/
structure UserCache where
  get_uid_4user : String → Int
  get_gid_4user : String → Int
  get_gids_4user : String → List Int
  get_gid_4group : String → Int
  get_members_4group : String → List String
  get_home_4user : String → String

/-- The configuration keys of the `config` dictionary read by
`BecomeUser.py` after `initialize` has run: `tsi.effective_uid`,
`tsi.effective_gid`, `tsi.switch_uid`, `tsi.enforce_os_gids`,
`tsi.fail_on_invalid_gids`, `tsi.user_cache`. -/
structure Config where
  effective_uid : Int
  effective_gid : Int
  switch_uid : Bool
  enforce_os_gids : Bool
  fail_on_invalid_gids : Bool
  user_cache : UserCache

/-- Process identity state mutated by `os.setgid` / `os.setgroups` /
`os.setegid` / `os.setresuid` and the `os.environ` entries written by
`become_user` and `restore_id`. -/
structure ProcState where
  ruid : Int
  euid : Int
  suid : Int
  rgid : Int
  egid : Int
  sgid : Int
  groups : List Int
  envHOME : String
  envUSER : String
  envLOGNAME : String
deriving DecidableEq, Repr

/-- One constructor per `raise` site reachable from `become_user`
(`RuntimeError` messages in the source), plus the `IndexError` that
`requested_groups[0]` raises on an empty list. -/
inductive TSIError where
  | indexOutOfRange
  | rootNoSwitch
  | unknownUser (user : String)
  | runAsRoot (user : String)
  | unknownPrimaryGroup (group : String)
  | notMemberPrimary (user group : String)
  | unknownSuppGroup (group : String)
  | notMemberSupp (user group : String)
  | uidVerifyFailed (user : String) (uid : Int)
  | gidVerifyFailed (user : String) (gid : Int)
  | groupsVerifyFailed (user : String)
deriving DecidableEq, Repr

/-- The caller-controlled inputs of `BecomeUser.initialize`:
`config.get("tsi.switch_uid", True)` is an optional boolean (absent key
defaults to true), the other two booleans are read by the group logic. -/
structure InitSettings where
  switch_uid : Option Bool
  enforce_os_gids : Bool
  fail_on_invalid_gids : Bool

/-- `BecomeUser.initialize` (lines 7-20): stores the effective UID/GID,
then sets `tsi.switch_uid` to true when the configured value is true or
the effective UID is 0, and to false otherwise.  It raises no error. -/
def initializeConfig (s : InitSettings) (euid egid : Int) (cache : UserCache) : Config :=
  { effective_uid := euid
    effective_gid := egid
    switch_uid := s.switch_uid.getD true || decide (euid = 0)
    enforce_os_gids := s.enforce_os_gids
    fail_on_invalid_gids := s.fail_on_invalid_gids
    user_cache := cache }

/-- `BecomeUser.check_membership` (lines 40-47): when membership is
enforced and the requested gid differs from the OS primary gid of the user,
the user must appear in the member list of the group. -/
def check_membership (group : String) (group_gid : Int) (user : String)
    (config : Config) : Bool :=
  if config.enforce_os_gids ∧ group_gid ≠ config.user_cache.get_gid_4user user then
    decide (user ∈ config.user_cache.get_members_4group group)
  else
    true

/-- `BecomeUser.get_primary_group` (lines 50-77).  The source mutates
`new_gid`; here the unknown-group fallback is the conditional defining
`new_gid`, and the membership check follows exactly as in the source. -/
def get_primary_group (primary user : String) (user_cache : UserCache)
    (fail_on_invalid_gids : Bool) (config : Config) : Except TSIError Int :=
  if primary = "DEFAULT_GID" then
    Except.ok (user_cache.get_gid_4user user)
  else
    let g0 := user_cache.get_gid_4group primary
    if g0 = -1 ∧ fail_on_invalid_gids then
      Except.error (TSIError.unknownPrimaryGroup primary)
    else
      let new_gid := if g0 = -1 then user_cache.get_gid_4user user else g0
      if check_membership primary new_gid user config = false then
        if fail_on_invalid_gids then
          Except.error (TSIError.notMemberPrimary user primary)
        else
          Except.ok (user_cache.get_gid_4user user)
      else
        Except.ok new_gid

/-- One Python-dict key insertion `d[k] = True`: the key list keeps
insertion order and ignores re-insertions (all stored values are `True`,
so the final `for g in sup_gids: if sup_gids[g]` loop of the source
returns exactly the key list). -/
def dictInsert (d : List Int) (k : Int) : List Int :=
  if k ∈ d then d else d ++ [k]

/-- One iteration of the `for g in requested_groups` loop of
`BecomeUser.get_supplementary_groups` (lines 89-117).  The accumulator is
the `sup_gids` key list paired with the `added_default` flag.  Note the
source behaviour on a failed membership check with
`fail_on_invalid_gids = false`: it logs a warning saying the group is
skipped but then falls through to `sup_gids[tmp] = True`, so the gid is
added all the same. -/
def sup_step (user : String) (config : Config) (acc : List Int × Bool)
    (g : String) : Except TSIError (List Int × Bool) :=
  if g = "DEFAULT_GID" then
    if acc.2 = false then
      Except.ok ((config.user_cache.get_gids_4user user).foldl dictInsert acc.1, true)
    else
      Except.ok acc
  else
    let tmp := config.user_cache.get_gid_4group g
    if tmp = -1 then
      if config.fail_on_invalid_gids then
        Except.error (TSIError.unknownSuppGroup g)
      else
        Except.ok acc
    else if check_membership g tmp user config = false then
      if config.fail_on_invalid_gids then
        Except.error (TSIError.notMemberSupp user g)
      else
        Except.ok (dictInsert acc.1 tmp, acc.2)
    else
      Except.ok (dictInsert acc.1 tmp, acc.2)

/-- The `for g in requested_groups` loop itself: runs `sup_step` over the
list, stopping at the first raised error. -/
def sup_fold (user : String) (config : Config) :
    List String → (List Int × Bool) → Except TSIError (List Int × Bool)
  | [], acc => Except.ok acc
  | g :: t, acc =>
    match sup_step user config acc g with
    | Except.error e => Except.error e
    | Except.ok acc1 => sup_fold user config t acc1

/-- `BecomeUser.get_supplementary_groups` (lines 80-123): `sup_gids`
starts as `{primary: True}` with `added_default = False`; the result is
the key list after the loop. -/
def get_supplementary_groups (requested_groups : List String) (primary : Int)
    (user : String) (config : Config) : Except TSIError (List Int) :=
  match sup_fold user config requested_groups ([primary], false) with
  | Except.error e => Except.error e
  | Except.ok acc => Except.ok acc.1

/-- The identity-changing tail of `BecomeUser.become_user` (lines
182-202): `os.setgid(new_gid)` (privileged, so it sets real, effective
and saved GID), `os.setgroups(new_gids)`, `os.setegid(new_gid)`,
`os.setresuid(new_uid, new_uid, euid)`, then the three post-switch
verification checks (the groups check compares as sets, mirroring
`set(os.getgroups()) != set(new_gids)`), then the environment exports. -/
def become_user_switch (user : String) (config : Config) (new_uid new_gid : Int)
    (new_gids : List Int) (st : ProcState) : Except TSIError Bool × ProcState :=
  let st1 := { st with rgid := new_gid, egid := new_gid, sgid := new_gid }
  let st2 := { st1 with groups := new_gids }
  let st3 := { st2 with egid := new_gid }
  let st4 := { st3 with ruid := new_uid, euid := new_uid, suid := config.effective_uid }
  if (st4.ruid, st4.euid) ≠ (new_uid, new_uid) then
    (Except.error (TSIError.uidVerifyFailed user new_uid), st4)
  else if (st4.rgid, st4.egid) ≠ (new_gid, new_gid) then
    (Except.error (TSIError.gidVerifyFailed user new_gid), st4)
  else if ¬ ((∀ g ∈ st4.groups, g ∈ new_gids) ∧ ∀ g ∈ new_gids, g ∈ st4.groups) then
    (Except.error (TSIError.groupsVerifyFailed user), st4)
  else
    (Except.ok true,
      { st4 with
        envHOME := config.user_cache.get_home_4user user
        envUSER := user
        envLOGNAME := user })

/-- `BecomeUser.become_user` (lines 126-202).  `requested_groups[0]` is
read before the `switch_uid` test, so an empty list raises `IndexError`
on every path, as in the source.  When not switching UIDs it raises for
a root effective UID and is a no-op otherwise; when switching it
resolves the target UID (rejecting unknown users and root), resolves
groups (system defaults for the `NONE` selector), and performs the
identity switch. -/
def become_user (user : String) (requested_groups : List String)
    (config : Config) (st : ProcState) : Except TSIError Bool × ProcState :=
  match requested_groups with
  | [] => (Except.error TSIError.indexOutOfRange, st)
  | primary :: _ =>
    if !config.switch_uid then
      if config.effective_uid = 0 then
        (Except.error TSIError.rootNoSwitch, st)
      else
        (Except.ok true, st)
    else
      let user_cache := config.user_cache
      let new_uid := user_cache.get_uid_4user user
      if new_uid = -1 then
        (Except.error (TSIError.unknownUser user), st)
      else if new_uid = 0 then
        (Except.error (TSIError.runAsRoot user), st)
      else if primary = "NONE" then
        become_user_switch user config new_uid (user_cache.get_gid_4user user)
          (user_cache.get_gids_4user user) st
      else
        match get_primary_group primary user user_cache
            config.fail_on_invalid_gids config with
        | Except.error e => (Except.error e, st)
        | Except.ok new_gid =>
          match get_supplementary_groups requested_groups new_gid user config with
          | Except.error e => (Except.error e, st)
          | Except.ok new_gids =>
            become_user_switch user config new_uid new_gid new_gids st

/-- `BecomeUser.restore_id` (lines 205-222): when `tsi.switch_uid` is set
it performs `os.setresuid(euid, euid, euid)`, `os.setgid(egid)`
(privileged: real, effective and saved GID), `os.setgroups([egid])`,
`os.setegid(egid)`, and resets `HOME`, `USER`, `LOGNAME` to `/tmp`,
`nobody`, `nobody`; otherwise it does nothing. -/
def restore_id (config : Config) (st : ProcState) : ProcState :=
  if config.switch_uid then
    let st1 := { st with
      ruid := config.effective_uid
      euid := config.effective_uid
      suid := config.effective_uid }
    let st2 := { st1 with
      rgid := config.effective_gid
      egid := config.effective_gid
      sgid := config.effective_gid }
    let st3 := { st2 with groups := [config.effective_gid] }
    let st4 := { st3 with egid := config.effective_gid }
    { st4 with envHOME := "/tmp", envUSER := "nobody", envLOGNAME := "nobody" }
  else
    st

/-- `TSI.handle_function` (lines 204-236) on the non-forking path
(`do_fork` false).  `id_info` abstracts the result of the
`#TSI_IDENTITY (\S+) (\S+)` regex search plus the `split(":")` of the
group field (`none` models a missing identity line); `handler` is the
dispatched command handler, returning its outcome together with the
process state it leaves behind.  The `try`/`except` of the source
catches every exception, so each failure path falls through to the
`restore_id` call guarded by `switch_uid`; the `b = false` branch models
the `user_switch_status is not True` re-raise. -/
def handle_function (handler : ProcState → Except String Unit × ProcState)
    (id_info : Option (String × List String)) (config : Config)
    (st : ProcState) : ProcState :=
  if config.switch_uid then
    match id_info with
    | none => restore_id config st
    | some (user, groups) =>
      match become_user user groups config st with
      | (Except.error _, st1) => restore_id config st1
      | (Except.ok b, st1) =>
        if b then
          restore_id config (handler st1).2
        else
          restore_id config st1
  else
    (handler st).2

/-- The keys of the `init_functions` table of `TSI.py` (lines 176-202) in
their source order, which is the iteration order of the `for cmd in
functions` scan in `process` (Python dicts preserve insertion order). -/
def registryOrder : List String :=
  ["TSI_PING", "TSI_PING_UID", "TSI_EXECUTESCRIPT", "TSI_GETFILECHUNK",
   "TSI_PUTFILECHUNK", "TSI_LS", "TSI_DF", "TSI_UFTP", "TSI_SUBMIT",
   "TSI_GETSTATUSLISTING", "TSI_GETPROCESSLISTING", "TSI_GETJOBDETAILS",
   "TSI_ABORTJOB", "TSI_HOLDJOB", "TSI_RESUMEJOB", "TSI_GET_COMPUTE_BUDGET",
   "TSI_MAKE_RESERVATION", "TSI_QUERY_RESERVATION", "TSI_CANCEL_RESERVATION",
   "TSI_FILE_ACL"]

/-- Whether `re.search(".*#<cmd>\n", message, re.M)` matches on a given
line: with multi-line mode and `.` not matching newlines, the pattern
matches exactly when some line of the message ends with `#<cmd>`.
Messages are modelled as their list of newline-terminated lines, each
given without its trailing newline. -/
def lineMatches (cmd : String) (line : String) : Bool :=
  ("#" ++ cmd).data.isSuffixOf line.data

/-- The command scan of `TSI.process` (lines 273-278): the first command
in registry order that matches somewhere in the message. -/
def findCommand (lines : List String) : Option String :=
  registryOrder.find? (fun cmd => lines.any (fun line => lineMatches cmd line))

/-- Modelled from the spec: the selection rule the claim describes, in
which the first line carrying any recognized tag determines the command
(the command whose tag line appears earliest in the message). -/
def claimSelect (lines : List String) : Option String :=
  match lines.find? (fun line => registryOrder.any (fun cmd => lineMatches cmd line)) with
  | none => none
  | some line => registryOrder.find? (fun cmd => lineMatches cmd line)

/-- Collapses the `DEFAULT_GID` occurrences of a requested-groups list to
exactly one (the first), leaving every other entry in place. -/
def collapseDefaults : List String → List String
  | [] => []
  | g :: t =>
    if g = "DEFAULT_GID" then
      g :: t.filter (fun x => x != "DEFAULT_GID")
    else
      g :: collapseDefaults t

/-- The process state `restore_id` installs when `switch_uid` is set. -/
def restoredState (config : Config) : ProcState :=
  { ruid := config.effective_uid
    euid := config.effective_uid
    suid := config.effective_uid
    rgid := config.effective_gid
    egid := config.effective_gid
    sgid := config.effective_gid
    groups := [config.effective_gid]
    envHOME := "/tmp"
    envUSER := "nobody"
    envLOGNAME := "nobody" }

/-- A handler that succeeds without touching process state (used to
instantiate `handle_function` at concrete inputs). -/
def handler0 : ProcState → Except String Unit × ProcState :=
  fun st => (Except.ok (), st)

/-- A concrete OS view: user `alice` has UID 1001, primary gid 100
(group `users`, of which she is a member), home `/home/alice`; group
`devs` has gid 500 and member list `[bob]`, so `alice` is not a member. -/
def cacheA : UserCache :=
  { get_uid_4user := fun u => if u = "alice" then 1001 else -1
    get_gid_4user := fun u => if u = "alice" then 100 else -1
    get_gids_4user := fun u => if u = "alice" then [100] else []
    get_gid_4group := fun g => if g = "users" then 100 else if g = "devs" then 500 else -1
    get_members_4group := fun g =>
      if g = "users" then ["alice"] else if g = "devs" then ["bob"] else []
    get_home_4user := fun u => if u = "alice" then "/home/alice" else "" }

/-- A concrete starting process state (running as root). -/
def st0 : ProcState :=
  { ruid := 0, euid := 0, suid := 0, rgid := 0, egid := 0, sgid := 0
    groups := [0], envHOME := "/root", envUSER := "root", envLOGNAME := "root" }

/-- Privileged config with membership enforcement and `fail_on_invalid_gids`
off (the C2 setting). -/
def cfg2 : Config :=
  { effective_uid := 0, effective_gid := 0, switch_uid := true
    enforce_os_gids := true, fail_on_invalid_gids := false, user_cache := cacheA }

/-- Privileged config with membership enforcement and `fail_on_invalid_gids`
on (the C7 setting). -/
def cfg7 : Config :=
  { effective_uid := 0, effective_gid := 0, switch_uid := true
    enforce_os_gids := true, fail_on_invalid_gids := true, user_cache := cacheA }

/-- Unprivileged config: not switching UIDs, effective UID 1000. -/
def cfg6 : Config :=
  { effective_uid := 1000, effective_gid := 100, switch_uid := false
    enforce_os_gids := true, fail_on_invalid_gids := false, user_cache := cacheA }

/-- C1 counterexample: with `tsi.switch_uid` explicitly configured false
and effective UID 0, `initialize` does not reject the configuration: it
returns normally, forcing `tsi.switch_uid` to true. -/
theorem initializeConfig_root_noswitch_accepted :
    (initializeConfig ⟨some false, true, false⟩ 0 0 cacheA).switch_uid = true ∧
    (initializeConfig ⟨some false, true, false⟩ 0 0 cacheA).effective_uid = 0 ∧
    initializeConfig ⟨some false, true, false⟩ 0 0 cacheA =
      { effective_uid := 0, effective_gid := 0, switch_uid := true
        enforce_os_gids := true, fail_on_invalid_gids := false
        user_cache := cacheA } :=
  ⟨rfl, rfl, rfl⟩

/-- C1 (amended): whenever the effective UID at `initialize` is 0, the
configuration is accepted and `tsi.switch_uid` is forced to true,
whatever value the caller configured; startup proceeds. -/
theorem initializeConfig_forces_true_when_root (s : InitSettings) (egid : Int)
    (cache : UserCache) :
    (initializeConfig s 0 egid cache).switch_uid = true := by
  simp [initializeConfig]

/-- C2: with `enforce_os_gids = true` and `fail_on_invalid_gids = false`,
the requested supplementary group `devs` (known gid 500, different from
the primary gid 100 of the user, member list not containing `alice`) is NOT
skipped: its gid 500 appears in the result of
`get_supplementary_groups`, although the source logs that it is
"skipping it". -/
theorem get_supplementary_groups_nonmember_added :
    cfg2.enforce_os_gids = true ∧ cfg2.fail_on_invalid_gids = false ∧
    cfg2.user_cache.get_gid_4group "devs" = 500 ∧
    cfg2.user_cache.get_gid_4user "alice" = 100 ∧
    "alice" ∉ cfg2.user_cache.get_members_4group "devs" ∧
    get_supplementary_groups ["devs"] 100 "alice" cfg2 = Except.ok [100, 500] :=
  ⟨rfl, rfl, rfl, rfl, by decide, rfl⟩

/-- C4 counterexample: for the message whose first line is
`#TSI_EXECUTESCRIPT` and whose second line is `#TSI_PING`, the scan of
`process` selects `TSI_PING` (the first match in registry order), not
the command of the earliest tag line, which is `TSI_EXECUTESCRIPT`. -/
theorem findCommand_not_earliest_line :
    findCommand ["#TSI_EXECUTESCRIPT", "#TSI_PING"] = some "TSI_PING" ∧
    claimSelect ["#TSI_EXECUTESCRIPT", "#TSI_PING"] = some "TSI_EXECUTESCRIPT" ∧
    (some "TSI_PING" : Option String) ≠ some "TSI_EXECUTESCRIPT" :=
  ⟨rfl, rfl, by decide⟩

/-- C5: when `switch_uid` is true and the user resolves to UID 0 or to
-1 (unknown), `become_user` raises before performing any
identity-changing call: it returns an error and the process state it
returns is exactly its input state. -/
theorem become_user_rejects_root_and_unknown (user : String)
    (requested_groups : List String) (config : Config) (st : ProcState)
    (hsw : config.switch_uid = true)
    (h : config.user_cache.get_uid_4user user = 0 ∨
         config.user_cache.get_uid_4user user = -1) :
    ∃ e, become_user user requested_groups config st = (Except.error e, st) := by
  cases requested_groups with
  | nil => exact ⟨TSIError.indexOutOfRange, by simp [become_user]⟩
  | cons p t =>
    rcases h with h | h
    · exact ⟨TSIError.runAsRoot user, by simp [become_user, hsw, h]⟩
    · exact ⟨TSIError.unknownUser user, by simp [become_user, hsw, h]⟩

theorem become_user_rejects_root_and_unknown_witness :
    cfg2.switch_uid = true ∧
    (cfg2.user_cache.get_uid_4user "ghost" = 0 ∨
     cfg2.user_cache.get_uid_4user "ghost" = -1) ∧
    ∃ e, become_user "ghost" ["NONE"] cfg2 st0 = (Except.error e, st0) :=
  ⟨rfl, Or.inr rfl,
    become_user_rejects_root_and_unknown "ghost" ["NONE"] cfg2 st0 rfl (Or.inr rfl)⟩

/-- C6: with `switch_uid` false and a non-zero stored effective UID,
`become_user` returns True and leaves the entire process state
(UIDs, GIDs, supplementary groups and the HOME/USER/LOGNAME
environment) unchanged.  The requested-groups list is non-empty, per
the interface contract that its first element is the primary-group
selector. -/
theorem become_user_unprivileged_noop (user primary : String)
    (rest : List String) (config : Config) (st : ProcState)
    (hsw : config.switch_uid = false)
    (he : config.effective_uid ≠ 0) :
    become_user user (primary :: rest) config st = (Except.ok true, st) := by
  simp [become_user, hsw, he]

theorem become_user_unprivileged_noop_witness :
    cfg6.switch_uid = false ∧ cfg6.effective_uid ≠ 0 ∧
    become_user "alice" ["users"] cfg6 st0 = (Except.ok true, st0) :=
  ⟨rfl, by decide,
    become_user_unprivileged_noop "alice" "users" [] cfg6 st0 rfl (by decide)⟩

/-- C8: with `enforce_os_gids = true` and `fail_on_invalid_gids = false`,
a requested primary group name unknown to the OS (gid resolution -1)
makes `get_primary_group` fall back successfully to the OS
default primary gid of the user. -/
theorem get_primary_group_unknown_falls_back (primary user : String)
    (config : Config)
    (henf : config.enforce_os_gids = true)
    (hd : primary ≠ "DEFAULT_GID")
    (hunknown : config.user_cache.get_gid_4group primary = -1) :
    get_primary_group primary user config.user_cache false config =
      Except.ok (config.user_cache.get_gid_4user user) := by
  simp [get_primary_group, hd, hunknown, check_membership]

theorem get_primary_group_unknown_falls_back_witness :
    cfg2.enforce_os_gids = true ∧ ("ghostgrp" : String) ≠ "DEFAULT_GID" ∧
    cfg2.user_cache.get_gid_4group "ghostgrp" = -1 ∧
    get_primary_group "ghostgrp" "alice" cfg2.user_cache false cfg2 =
      Except.ok (cfg2.user_cache.get_gid_4user "alice") :=
  ⟨rfl, by decide, rfl,
    get_primary_group_unknown_falls_back "ghostgrp" "alice" cfg2 rfl (by decide) rfl⟩

/-- C3: on the non-forking path with `switch_uid` true, whatever
`become_user` and the handler do (succeed or raise), `handle_function`
finishes through `restore_id`, and `restore_id` sets real/effective/saved
UID to the stored effective UID, real/effective (and saved) GID to the
stored effective GID, the supplementary groups to the singleton of the
stored effective GID, and HOME, USER, LOGNAME to `/tmp`, `nobody`,
`nobody` — so the state `handle_function` returns is exactly that
restored state. -/
theorem handle_function_always_restores
    (handler : ProcState → Except String Unit × ProcState)
    (id_info : Option (String × List String)) (config : Config) (st : ProcState)
    (hsw : config.switch_uid = true) :
    (∀ s, restore_id config s = restoredState config) ∧
    handle_function handler id_info config st = restoredState config := by
  have hr : ∀ s, restore_id config s = restoredState config := by
    intro s
    simp [restore_id, hsw, restoredState]
  refine ⟨hr, ?_⟩
  unfold handle_function
  rw [if_pos hsw]
  cases id_info with
  | none => exact hr st
  | some pair =>
    obtain ⟨user, groups⟩ := pair
    rcases hbu : become_user user groups config st with ⟨r, st1⟩
    cases r with
    | error e => simp [hbu, hr]
    | ok b =>
      cases b with
      | false => simp [hbu, hr]
      | true => simp [hbu, hr]

theorem handle_function_always_restores_witness :
    cfg2.switch_uid = true ∧
    handle_function handler0 (some ("alice", ["users", "devs"])) cfg2 st0 =
      restoredState cfg2 :=
  ⟨rfl,
    (handle_function_always_restores handler0 (some ("alice", ["users", "devs"]))
      cfg2 st0 rfl).2⟩

/-- A non-`DEFAULT_GID` step leaves the `added_default` flag unchanged. -/
theorem sup_step_flag_preserved (user : String) (config : Config) (g : String)
    (d : List Int) (b : Bool) (d1 : List Int) (b1 : Bool)
    (hg : g ≠ "DEFAULT_GID")
    (h : sup_step user config (d, b) g = Except.ok (d1, b1)) : b1 = b := by
  unfold sup_step at h
  rw [if_neg hg] at h
  by_cases h1 : config.user_cache.get_gid_4group g = -1 <;>
    by_cases h2 : config.fail_on_invalid_gids = true <;>
      by_cases h3 : check_membership g (config.user_cache.get_gid_4group g) user config = false <;>
        simp_all

/-- Once the `added_default` flag is set, later `DEFAULT_GID` entries are
no-ops: the loop behaves as if they were removed. -/
theorem sup_fold_flag_true (user : String) (config : Config) :
    ∀ (l : List String) (d : List Int),
      sup_fold user config l (d, true) =
        sup_fold user config (l.filter (fun x => x != "DEFAULT_GID")) (d, true) := by
  intro l
  induction l with
  | nil => intro d; rfl
  | cons g t ih =>
    intro d
    by_cases hg : g = "DEFAULT_GID"
    · subst hg
      have hstep : sup_step user config (d, true) "DEFAULT_GID" = Except.ok (d, true) := by
        simp [sup_step]
      simp only [sup_fold, hstep, List.filter_cons]
      simp only [bne_self_eq_false, Bool.false_eq_true, if_false]
      exact ih d
    · have hfil : (g :: t).filter (fun x => x != "DEFAULT_GID") =
          g :: t.filter (fun x => x != "DEFAULT_GID") := by
        simp [List.filter_cons, hg]
      rw [hfil]
      simp only [sup_fold]
      cases hstep : sup_step user config (d, true) g with
      | error e => rfl
      | ok acc1 =>
        obtain ⟨d1, b1⟩ := acc1
        have hb1 : b1 = true := sup_step_flag_preserved user config g d true d1 b1 hg hstep
        subst hb1
        exact ih d1

/-- The supplementary-group loop gives the same outcome on a list and on
its collapse to a single `DEFAULT_GID` entry, from any accumulator. -/
theorem sup_fold_collapse (user : String) (config : Config) :
    ∀ (l : List String) (acc : List Int × Bool),
      sup_fold user config l acc =
        sup_fold user config (collapseDefaults l) acc := by
  intro l
  induction l with
  | nil => intro acc; rfl
  | cons g t ih =>
    intro acc
    obtain ⟨d, b⟩ := acc
    by_cases hg : g = "DEFAULT_GID"
    · subst hg
      rw [collapseDefaults]
      simp only [if_pos rfl]
      cases b with
      | false =>
        have hstep : sup_step user config (d, false) "DEFAULT_GID" =
            Except.ok ((config.user_cache.get_gids_4user user).foldl dictInsert d, true) := by
          simp [sup_step]
        simp only [sup_fold, hstep]
        exact sup_fold_flag_true user config t _
      | true =>
        have hstep : sup_step user config (d, true) "DEFAULT_GID" = Except.ok (d, true) := by
          simp [sup_step]
        simp only [sup_fold, hstep]
        exact sup_fold_flag_true user config t d
    · rw [collapseDefaults]
      simp only [if_neg hg]
      simp only [sup_fold]
      cases hstep : sup_step user config (d, b) g with
      | error e => rfl
      | ok acc1 => exact ih acc1

/-- C9: any number of `DEFAULT_GID` entries in the requested-groups list
produces the same result of `get_supplementary_groups` as exactly one,
at the position of the first: the results agree not only as
supplementary-group sets but as whole outcomes (identical gid lists, or
identical errors). -/
theorem get_supplementary_groups_default_idempotent (requested_groups : List String)
    (primary : Int) (user : String) (config : Config) :
    get_supplementary_groups requested_groups primary user config =
      get_supplementary_groups (collapseDefaults requested_groups) primary user config := by
  unfold get_supplementary_groups
  rw [sup_fold_collapse]

/-- C7 counterexample: with `enforce_os_gids = true`,
`fail_on_invalid_gids = true` and `switch_uid` true, the request
`["NONE", "devs"]` names the supplementary group `devs`, whose gid 500
differs from the primary gid 100 of `alice` and whose member list does
not contain `alice` — yet `become_user` succeeds and performs the
identity switch, because the `NONE` primary selector makes it take the
system-defaults branch and skip all group checks. -/
theorem become_user_none_bypasses_checks :
    cfg7.enforce_os_gids = true ∧ cfg7.fail_on_invalid_gids = true ∧
    cfg7.switch_uid = true ∧
    cfg7.user_cache.get_gid_4group "devs" ≠ cfg7.user_cache.get_gid_4user "alice" ∧
    "alice" ∉ cfg7.user_cache.get_members_4group "devs" ∧
    become_user "alice" ["NONE", "devs"] cfg7 st0 =
      (Except.ok true,
        { ruid := 1001, euid := 1001, suid := 0, rgid := 100, egid := 100
          sgid := 100, groups := [100], envHOME := "/home/alice"
          envUSER := "alice", envLOGNAME := "alice" }) :=
  ⟨rfl, rfl, rfl, by decide, by decide, rfl⟩

/-- A requested group that is not `DEFAULT_GID`, resolves differently
from the OS primary gid of the user, and lacks the user in its member list
makes `sup_step` raise when `fail_on_invalid_gids` is set. -/
theorem sup_step_bad_group_errors (user : String) (config : Config)
    (acc : List Int × Bool) (g : String)
    (henf : config.enforce_os_gids = true)
    (hfail : config.fail_on_invalid_gids = true)
    (hg : g ≠ "DEFAULT_GID")
    (hgid : config.user_cache.get_gid_4group g ≠ config.user_cache.get_gid_4user user)
    (hmem : user ∉ config.user_cache.get_members_4group g) :
    ∃ e, sup_step user config acc g = Except.error e := by
  unfold sup_step
  rw [if_neg hg]
  by_cases h1 : config.user_cache.get_gid_4group g = -1
  · exact ⟨TSIError.unknownSuppGroup g, by simp [h1, hfail]⟩
  · refine ⟨TSIError.notMemberSupp user g, ?_⟩
    have hcm : check_membership g (config.user_cache.get_gid_4group g) user config = false := by
      simp [check_membership, henf, hgid, hmem]
    simp [h1, hcm, hfail]

/-- If some element of the list is such a bad group, the whole
supplementary-group loop raises. -/
theorem sup_fold_bad_group_errors (user : String) (config : Config)
    (henf : config.enforce_os_gids = true)
    (hfail : config.fail_on_invalid_gids = true) :
    ∀ (l : List String) (acc : List Int × Bool),
      (∃ g ∈ l, g ≠ "DEFAULT_GID" ∧
        config.user_cache.get_gid_4group g ≠ config.user_cache.get_gid_4user user ∧
        user ∉ config.user_cache.get_members_4group g) →
      ∃ e, sup_fold user config l acc = Except.error e := by
  intro l
  induction l with
  | nil =>
    rintro acc ⟨g, hgmem, -⟩
    exact absurd hgmem (List.not_mem_nil g)
  | cons a t ih =>
    rintro acc ⟨g, hgmem, hprops⟩
    rcases List.mem_cons.mp hgmem with rfl | hgt
    · obtain ⟨hg, hgid, hmem⟩ := hprops
      obtain ⟨e, he⟩ := sup_step_bad_group_errors user config acc g henf hfail hg hgid hmem
      exact ⟨e, by simp [sup_fold, he]⟩
    · cases hstep : sup_step user config acc a with
      | error e => exact ⟨e, by simp [sup_fold, hstep]⟩
      | ok acc1 =>
        obtain ⟨e, he⟩ := ih acc1 ⟨g, hgt, hprops⟩
        exact ⟨e, by simp [sup_fold, hstep, he]⟩

/-- C7 (amended): with `enforce_os_gids = true`,
`fail_on_invalid_gids = true` and `switch_uid` true, provided the
primary-group selector is not the `NONE` sentinel (which makes
`become_user` use the system defaults and ignore the requested list), a
requested group that the user is not a member of and that does not
resolve to the OS primary gid of the user makes `become_user` raise before
any of the setgid/setgroups/setuid calls: it returns an error together
with its input state, unchanged. -/
theorem become_user_bad_group_fails (user primary : String) (rest : List String)
    (config : Config) (st : ProcState)
    (hsw : config.switch_uid = true)
    (henf : config.enforce_os_gids = true)
    (hfail : config.fail_on_invalid_gids = true)
    (hnone : primary ≠ "NONE")
    (hbad : ∃ g ∈ primary :: rest, g ≠ "DEFAULT_GID" ∧
      config.user_cache.get_gid_4group g ≠ config.user_cache.get_gid_4user user ∧
      user ∉ config.user_cache.get_members_4group g) :
    ∃ e, become_user user (primary :: rest) config st = (Except.error e, st) := by
  by_cases h1 : config.user_cache.get_uid_4user user = -1
  · exact ⟨TSIError.unknownUser user, by simp [become_user, hsw, h1]⟩
  by_cases h0 : config.user_cache.get_uid_4user user = 0
  · exact ⟨TSIError.runAsRoot user, by simp [become_user, hsw, h1, h0]⟩
  cases hgp : get_primary_group primary user config.user_cache
      config.fail_on_invalid_gids config with
  | error e =>
    exact ⟨e, by simp [become_user, hsw, h1, h0, hnone, hgp]⟩
  | ok new_gid =>
    obtain ⟨e, he⟩ := sup_fold_bad_group_errors user config henf hfail
      (primary :: rest) ([new_gid], false) hbad
    refine ⟨e, ?_⟩
    have hsup : get_supplementary_groups (primary :: rest) new_gid user config =
        Except.error e := by
      simp [get_supplementary_groups, he]
    simp [become_user, hsw, h1, h0, hnone, hgp, hsup]

theorem become_user_bad_group_fails_witness :
    cfg7.switch_uid = true ∧ cfg7.enforce_os_gids = true ∧
    cfg7.fail_on_invalid_gids = true ∧ ("users" : String) ≠ "NONE" ∧
    ∃ e, become_user "alice" ["users", "devs"] cfg7 st0 = (Except.error e, st0) :=
  ⟨rfl, rfl, rfl, by decide,
    become_user_bad_group_fails "alice" "users" ["devs"] cfg7 st0 rfl rfl rfl
      (by decide)
      ⟨"devs", by decide, by decide, by decide, by decide⟩⟩

/-- `get_primary_group` never raises the root-and-not-switching error. -/
theorem get_primary_group_ne_rootNoSwitch (primary user : String)
    (user_cache : UserCache) (f : Bool) (config : Config) :
    get_primary_group primary user user_cache f config ≠
      Except.error TSIError.rootNoSwitch := by
  intro h
  unfold get_primary_group at h
  by_cases hd : primary = "DEFAULT_GID"
  · rw [if_pos hd] at h
    simp at h
  · rw [if_neg hd] at h
    by_cases h1 : user_cache.get_gid_4group primary = -1 <;>
      by_cases h2 : f = true <;>
        by_cases h3 : check_membership primary
            (if user_cache.get_gid_4group primary = -1 then
              user_cache.get_gid_4user user
            else user_cache.get_gid_4group primary) user config = false <;>
          simp_all

/-- `sup_step` never raises the root-and-not-switching error. -/
theorem sup_step_ne_rootNoSwitch (user : String) (config : Config)
    (acc : List Int × Bool) (g : String) :
    sup_step user config acc g ≠ Except.error TSIError.rootNoSwitch := by
  intro h
  unfold sup_step at h
  by_cases hg : g = "DEFAULT_GID"
  · rw [if_pos hg] at h
    split_ifs at h
  · rw [if_neg hg] at h
    by_cases h1 : config.user_cache.get_gid_4group g = -1 <;>
      by_cases h2 : config.fail_on_invalid_gids = true <;>
        by_cases h3 : check_membership g (config.user_cache.get_gid_4group g) user config
            = false <;>
          simp_all

/-- Neither does the supplementary-group loop. -/
theorem sup_fold_ne_rootNoSwitch (user : String) (config : Config) :
    ∀ (l : List String) (acc : List Int × Bool),
      sup_fold user config l acc ≠ Except.error TSIError.rootNoSwitch := by
  intro l
  induction l with
  | nil => intro acc; simp [sup_fold]
  | cons g t ih =>
    intro acc
    simp only [sup_fold]
    cases hstep : sup_step user config acc g with
    | error e =>
      intro h
      rw [Except.error.injEq] at h
      subst h
      exact sup_step_ne_rootNoSwitch user config acc g hstep
    | ok acc1 => exact ih acc1

/-- Nor does `get_supplementary_groups`. -/
theorem get_supplementary_groups_ne_rootNoSwitch (l : List String) (primary : Int)
    (user : String) (config : Config) :
    get_supplementary_groups l primary user config ≠
      Except.error TSIError.rootNoSwitch := by
  intro h
  unfold get_supplementary_groups at h
  cases hf : sup_fold user config l ([primary], false) with
  | error e =>
    rw [hf] at h
    simp only [Except.error.injEq] at h
    exact sup_fold_ne_rootNoSwitch user config l ([primary], false) (by rw [hf, h])
  | ok acc =>
    rw [hf] at h
    simp at h

/-- Nor does the identity-switch tail. -/
theorem become_user_switch_ne_rootNoSwitch (user : String) (config : Config)
    (new_uid new_gid : Int) (new_gids : List Int) (st : ProcState) :
    (become_user_switch user config new_uid new_gid new_gids st).1 ≠
      Except.error TSIError.rootNoSwitch := by
  intro h
  simp only [become_user_switch] at h
  split_ifs at h <;> simp_all

/-- The root-and-not-switching error of `become_user` identifies its
branch condition: it is raised only when `switch_uid` is false while the
stored effective UID is 0. -/
theorem become_user_rootNoSwitch_inv (user : String) (requested_groups : List String)
    (config : Config) (st : ProcState)
    (h : (become_user user requested_groups config st).1 =
      Except.error TSIError.rootNoSwitch) :
    config.switch_uid = false ∧ config.effective_uid = 0 := by
  cases requested_groups with
  | nil => simp [become_user] at h
  | cons primary rest =>
    by_cases hsw : config.switch_uid = true
    · exfalso
      rw [become_user] at h
      rw [if_neg (by simp [hsw])] at h
      by_cases h1 : config.user_cache.get_uid_4user user = -1
      · simp [h1] at h
      rw [if_neg h1] at h
      by_cases h0 : config.user_cache.get_uid_4user user = 0
      · simp [h0] at h
      rw [if_neg h0] at h
      by_cases hn : primary = "NONE"
      · rw [if_pos hn] at h
        exact become_user_switch_ne_rootNoSwitch user config
          (config.user_cache.get_uid_4user user)
          (config.user_cache.get_gid_4user user)
          (config.user_cache.get_gids_4user user) st h
      · rw [if_neg hn] at h
        split at h
        · rename_i e heq
          replace h : (Except.error e : Except TSIError Bool) =
              Except.error TSIError.rootNoSwitch := h
          rw [Except.error.injEq] at h
          exact get_primary_group_ne_rootNoSwitch primary user config.user_cache
            config.fail_on_invalid_gids config (by rw [heq, h])
        · rename_i new_gid heq
          split at h
          · rename_i e heq2
            replace h : (Except.error e : Except TSIError Bool) =
                Except.error TSIError.rootNoSwitch := h
            rw [Except.error.injEq] at h
            exact get_supplementary_groups_ne_rootNoSwitch (primary :: rest) new_gid
              user config (by rw [heq2, h])
          · rename_i new_gids heq2
            exact become_user_switch_ne_rootNoSwitch user config
              (config.user_cache.get_uid_4user user) new_gid new_gids st h
    · have hswf : config.switch_uid = false := by
        cases hb : config.switch_uid
        · rfl
        · exact absurd hb hsw
      rw [become_user] at h
      rw [if_pos (by simp [hswf])] at h
      by_cases h0 : config.effective_uid = 0
      · exact ⟨hswf, h0⟩
      · rw [if_neg h0] at h
        simp at h

/-- C10: `initialize` forces `tsi.switch_uid` to true whenever the
effective UID it captures is 0, whatever the caller configured; as a
consequence, on any config produced by `initialize`, the
running-as-root-and-not-setting-uids error branch of `become_user` can
never fire, for any user, requested-groups list and process state. -/
theorem initializeConfig_unreachable_root_branch (s : InitSettings)
    (euid egid : Int) (cache : UserCache) :
    (euid = 0 → (initializeConfig s euid egid cache).switch_uid = true) ∧
    ∀ (user : String) (requested_groups : List String) (st : ProcState),
      (become_user user requested_groups
        (initializeConfig s euid egid cache) st).1 ≠
          Except.error TSIError.rootNoSwitch := by
  constructor
  · intro h
    simp [initializeConfig, h]
  · intro user requested_groups st h
    obtain ⟨hswf, h0⟩ :=
      become_user_rootNoSwitch_inv user requested_groups _ st h
    simp only [initializeConfig] at hswf h0
    rw [Bool.or_eq_false_iff] at hswf
    rw [h0] at hswf
    simp at hswf

theorem initializeConfig_unreachable_root_branch_witness :
    (initializeConfig ⟨some false, true, true⟩ 0 5 cacheA).switch_uid = true ∧
    (become_user "alice" ["NONE"]
      (initializeConfig ⟨some false, true, true⟩ 0 5 cacheA) st0).1 ≠
        Except.error TSIError.rootNoSwitch :=
  ⟨(initializeConfig_unreachable_root_branch ⟨some false, true, true⟩ 0 5 cacheA).1 rfl,
    (initializeConfig_unreachable_root_branch ⟨some false, true, true⟩ 0 5 cacheA).2
      "alice" ["NONE"] st0⟩

/-- `find?` returns the head of the first position satisfying the
predicate: everything before failing and the element holding pins the
result. -/
theorem find_append_cons {α : Type} (p : α → Bool) :
    ∀ (pre : List α) (c : α) (post : List α),
      (∀ x ∈ pre, p x = false) → p c = true →
      (pre ++ c :: post).find? p = some c := by
  intro pre
  induction pre with
  | nil =>
    intro c post _ hc
    exact List.find?_cons_of_pos post hc
  | cons x xs ih =>
    intro c post hpre hc
    have hx : p x = false := hpre x (List.mem_cons_self x xs)
    rw [List.cons_append, List.find?_cons_of_neg _ (by simp [hx])]
    exact ih c post (fun y hy => hpre y (List.mem_cons_of_mem x hy)) hc

/-- C4 (amended): the scan of `process` selects commands by the fixed
registry order of `init_functions`, not by line position in the message:
the recognized command dispatched is the first one in registry order
whose tag occurs on any line of the message. -/
theorem findCommand_registry_order_priority (lines : List String)
    (pre : List String) (c : String) (post : List String)
    (hreg : registryOrder = pre ++ c :: post)
    (hpre : ∀ x ∈ pre, lines.any (fun line => lineMatches x line) = false)
    (hc : lines.any (fun line => lineMatches c line) = true) :
    findCommand lines = some c := by
  unfold findCommand
  rw [hreg]
  exact find_append_cons _ pre c post hpre hc

theorem findCommand_registry_order_priority_witness :
    (∀ x ∈ ["TSI_PING", "TSI_PING_UID", "TSI_EXECUTESCRIPT", "TSI_GETFILECHUNK",
        "TSI_PUTFILECHUNK"],
      (["ls /tmp", "#TSI_LS"].any (fun line => lineMatches x line)) = false) ∧
    (["ls /tmp", "#TSI_LS"].any (fun line => lineMatches "TSI_LS" line)) = true ∧
    findCommand ["ls /tmp", "#TSI_LS"] = some "TSI_LS" :=
  ⟨by decide, by decide,
    findCommand_registry_order_priority ["ls /tmp", "#TSI_LS"]
      ["TSI_PING", "TSI_PING_UID", "TSI_EXECUTESCRIPT", "TSI_GETFILECHUNK",
       "TSI_PUTFILECHUNK"] "TSI_LS"
      ["TSI_DF", "TSI_UFTP", "TSI_SUBMIT", "TSI_GETSTATUSLISTING",
       "TSI_GETPROCESSLISTING", "TSI_GETJOBDETAILS", "TSI_ABORTJOB", "TSI_HOLDJOB",
       "TSI_RESUMEJOB", "TSI_GET_COMPUTE_BUDGET", "TSI_MAKE_RESERVATION",
       "TSI_QUERY_RESERVATION", "TSI_CANCEL_RESERVATION", "TSI_FILE_ACL"]
      rfl (by decide) (by decide)⟩
